import Mathlib

/-!
# CraftConnect — verification of the eco-impact estimator and auto-tagger

Shallow embedding, over `ℚ` and `String`, of:

* `src/backend/estimator.py` — `estimate_eco_impact`;
* `src/backend/app.py` — the `/predict` request validation;
* `src/ml/auto_tagging.py` — `AutoTagger` (categories, materials,
  eco-impact score, price categorization, `tag_item`);
* `src/ml/advanced_models.py` — `AdvancedPricingModel.predict_price`
  ensemble combination.

Python floats are modelled as rationals; Python's `round(x, d)` is modelled
as rounding to the nearest multiple of `10 ^ (-d)` (CPython breaks ties on
the binary representation of the float; no property below depends on a tie).
-/

namespace CraftConnect

/-- Python `round(x, d)` on rationals: nearest multiple of `10 ^ (-d)`
(ties rounded half-up; no claim below evaluates at a tie). -/
def roundTo (d : ℕ) (x : ℚ) : ℚ := ((round (x * 10 ^ d) : ℤ) : ℚ) / 10 ^ d

/-- `round` on `ℚ` is monotone. -/
theorem round_rat_mono {x y : ℚ} (h : x ≤ y) : round x ≤ round y := by
  rw [round_eq, round_eq]
  exact Int.floor_mono (by linarith)

theorem roundTo_nonneg (d : ℕ) (x : ℚ) (h : 0 ≤ x) : 0 ≤ roundTo d x := by
  unfold roundTo
  apply div_nonneg _ (by positivity)
  have h0 : round ((0 : ℚ)) ≤ round (x * 10 ^ d) :=
    round_rat_mono (by positivity)
  rw [round_zero] at h0
  exact_mod_cast h0

theorem roundTo_le_of_le (d : ℕ) (x : ℚ) (m : ℤ) (h : x ≤ m) :
    roundTo d x ≤ m := by
  unfold roundTo
  rw [div_le_iff₀ (by positivity : (0:ℚ) < 10 ^ d)]
  have h1 : round (x * 10 ^ d) ≤ round ((m : ℚ) * 10 ^ d) := by
    apply round_rat_mono
    have hp : (0:ℚ) < 10 ^ d := by positivity
    exact mul_le_mul_of_nonneg_right h (le_of_lt hp)
  have h2 : round ((m : ℚ) * 10 ^ d) = m * 10 ^ d := by
    have : ((m : ℚ) * 10 ^ d) = ((m * 10 ^ d : ℤ) : ℚ) := by push_cast; ring
    rw [this, round_intCast]
  calc ((round (x * 10 ^ d) : ℤ) : ℚ) ≤ ((round ((m : ℚ) * 10 ^ d) : ℤ) : ℚ) := by
        exact_mod_cast h1
    _ = ((m * 10 ^ d : ℤ) : ℚ) := by exact_mod_cast h2
    _ = (m : ℚ) * 10 ^ d := by push_cast; ring

/-! ## `src/backend/estimator.py` -/

/-- A product as consumed by `estimate_eco_impact`. -/
structure Product where
  category : String
  weight_g : ℚ
  packaging_weight_g : ℚ
  distance_km_to_market : ℚ
  percent_recycled_material : ℚ
  production_method : String

/-- The `category_factors` table: category ↦ (factory, handmade_mult). -/
def category_factors : List (String × ℚ × ℚ) :=
  [("textiles", (5.0, 0.5)),
   ("terracotta", (3.0, 1.0)),
   ("bamboo", (2.5, 0.8)),
   ("toys", (4.0, 0.7)),
   ("painting", (1.5, 0.5))]

/-- `category_factors.get(category, {"factory": 3.0, "handmade_mult": 0.8})`. -/
def categoryFactor (c : String) : ℚ × ℚ :=
  match category_factors.find? (fun e => e.1 == c) with
  | some e => e.2
  | none => (3.0, 0.8)

/-- `{"handmade": ..., "small-batch": 0.7, "factory": 1.0}.get(method, 0.8)`. -/
def production_multiplier (handmade_mult : ℚ) (method : String) : ℚ :=
  if method == "handmade" then handmade_mult
  else if method == "small-batch" then 0.7
  else if method == "factory" then 1.0
  else 0.8

/-- `(weight_kg + packaging_kg) * factors["factory"]`. -/
def base_material_impact (p : Product) : ℚ :=
  (p.weight_g / 1000 + p.packaging_weight_g / 1000) * (categoryFactor p.category).1

/-- `0.01 * distance_km`. -/
def transport_impact (p : Product) : ℚ := 0.01 * p.distance_km_to_market

/-- `factory_co2 = base_material_impact + transport_impact`. -/
def factory_co2 (p : Product) : ℚ := base_material_impact p + transport_impact p

/-- `artisan_co2 = base_material_impact * production_multiplier + transport_impact * 0.3`. -/
def artisan_co2 (p : Product) : ℚ :=
  base_material_impact p * production_multiplier (categoryFactor p.category).2 p.production_method
    + transport_impact p * 0.3

/-- `estimate_eco_impact` — returns `(round(co2_saving, 2), round(sustainability_score, 1))`. -/
def estimate_eco_impact (p : Product) : ℚ × ℚ :=
  let co2_saving := max (factory_co2 p - artisan_co2 p) 0
  let base_sustainability := p.percent_recycled_material * 0.4
  let method_bonus : ℚ :=
    if p.production_method == "handmade" then 35
    else if p.production_method == "small-batch" then 20
    else 0
  let distance_penalty := min (p.distance_km_to_market * 0.05) 25
  let weight_penalty := min ((p.weight_g / 1000 + p.packaging_weight_g / 1000) * 8) 15
  let sustainability_score :=
    base_sustainability + method_bonus - distance_penalty - weight_penalty
  let clamped := max 0 (min sustainability_score 95)
  (roundTo 2 co2_saving, roundTo 1 clamped)

/-- C1: for every product, the returned sustainability score lies in `[0, 95]`
(the code's clamp is `max(0, min(score, 95))`, i.e. the documented cap is 95). -/
theorem sustainability_score_in_range (p : Product) :
    0 ≤ (estimate_eco_impact p).2 ∧ (estimate_eco_impact p).2 ≤ 95 := by
  unfold estimate_eco_impact
  refine ⟨roundTo_nonneg _ _ (le_max_left 0 _), ?_⟩
  have h95 := roundTo_le_of_le 1
    (max 0 (min (p.percent_recycled_material * 0.4 +
      (if p.production_method == "handmade" then 35
       else if p.production_method == "small-batch" then 20
       else 0) - min (p.distance_km_to_market * 0.05) 25 -
      min ((p.weight_g / 1000 + p.packaging_weight_g / 1000) * 8) 15) 95)) 95
    (max_le (by norm_num) (min_le_right _ _))
  simpa using h95

/-- C2: the CO₂ saving the estimator returns is
`round(max(factory_co2 - artisan_co2, 0), 2)` and is never negative. -/
theorem co2_saving_eq_max_and_nonneg (p : Product) :
    (estimate_eco_impact p).1 = roundTo 2 (max (factory_co2 p - artisan_co2 p) 0) ∧
    0 ≤ (estimate_eco_impact p).1 :=
  ⟨rfl, roundTo_nonneg _ _ (le_max_right _ 0)⟩

/-- Scenario A of the spec. -/
def scenarioA : Product :=
  { category := "textiles", weight_g := 250, packaging_weight_g := 60,
    distance_km_to_market := 280, percent_recycled_material := 35,
    production_method := "handmade" }

/-- What the estimator actually returns on scenario A. -/
theorem scenarioA_eval : estimate_eco_impact scenarioA = (2.74, 32.5) := by
  norm_num [estimate_eco_impact, scenarioA, factory_co2, artisan_co2,
    base_material_impact, transport_impact, categoryFactor, production_multiplier,
    category_factors, roundTo, round_eq]

/-- C3 counterexample: on scenario A the sustainability score is 32.5, so the
claimed conjunction (CO₂ saving positive AND score between 40 and 70) fails. -/
theorem scenarioA_claim_false :
    ¬ (0 < (estimate_eco_impact scenarioA).1 ∧
       40 ≤ (estimate_eco_impact scenarioA).2 ∧ (estimate_eco_impact scenarioA).2 ≤ 70) := by
  rw [scenarioA_eval]
  norm_num

/-- C3 amended: on scenario A the CO₂ saving is strictly positive (2.74) and the
sustainability score is 32.5, which lies between 30 and 40 rather than 40 and 70. -/
theorem scenarioA_behaviour :
    0 < (estimate_eco_impact scenarioA).1 ∧
    (estimate_eco_impact scenarioA).2 = 32.5 ∧
    30 ≤ (estimate_eco_impact scenarioA).2 ∧ (estimate_eco_impact scenarioA).2 ≤ 40 := by
  rw [scenarioA_eval]
  norm_num

/-! ## `src/ml/auto_tagging.py` — `AutoTagger` -/

/-- Data model for a craft item (`CraftItem`). -/
structure CraftItem where
  title : String
  description : String
  price : Option ℚ := none
  artisan : Option String := none
  location : Option String := none
  materials : Option (List String) := none
  images : Option (List String) := none

/-- Python's `needle in haystack` on character lists. -/
def listInfixOf (needle : List Char) : List Char → Bool
  | [] => needle.isEmpty
  | c :: cs => needle.isPrefixOf (c :: cs) || listInfixOf needle cs

/-- Python's `needle in haystack` for strings. -/
def strContains (haystack needle : String) : Bool :=
  listInfixOf needle.data haystack.data

/-- Python `str.lower()`, character by character (`Char.toLower` is the
ASCII lowercasing both languages perform on the tables' keywords). -/
def strToLower (s : String) : String := ⟨s.data.map Char.toLower⟩

/-- `f"{item.title} {item.description}".lower()`. -/
def itemText (i : CraftItem) : String := strToLower (i.title ++ " " ++ i.description)

/-- The `craft_categories` keyword table. -/
def craft_categories : List (String × List String) :=
  [("jewelry", ["ring", "necklace", "bracelet", "earring", "pendant", "brooch", "anklet"]),
   ("textiles", ["scarf", "bag", "purse", "clothing", "fabric", "embroidery", "weaving", "knitting"]),
   ("pottery", ["vase", "bowl", "mug", "plate", "ceramic", "clay", "pottery"]),
   ("woodwork", ["furniture", "carving", "sculpture", "wooden", "timber", "oak", "pine"]),
   ("metalwork", ["steel", "iron", "copper", "bronze", "aluminum", "metal"]),
   ("glasswork", ["glass", "blown", "stained", "crystal", "mirror"]),
   ("leather", ["leather", "hide", "suede", "belt", "wallet", "boots"]),
   ("fiber_arts", ["yarn", "wool", "cotton", "silk", "hemp", "linen", "crochet"])]

/-- The `sustainable_materials` keyword table. -/
def sustainable_materials : List (String × List String) :=
  [("recycled", ["recycled", "upcycled", "repurposed", "reclaimed"]),
   ("organic", ["organic", "natural", "eco-friendly", "biodegradable"]),
   ("renewable", ["bamboo", "cork", "hemp", "jute", "rattan"]),
   ("local", ["local", "locally sourced", "regional", "native"]),
   ("fair_trade", ["fair trade", "ethically sourced", "sustainable"]),
   ("low_impact", ["solar dried", "hand made", "minimal packaging", "carbon neutral"])]

/-- The `price_categories` table; `none` models `float("inf")` as upper bound. -/
def price_categories : List (String × ℚ × Option ℚ) :=
  [("budget", (0, some 25)),
   ("affordable", (25, some 75)),
   ("mid_range", (75, some 200)),
   ("premium", (200, some 500)),
   ("luxury", (500, none))]

/-- `min_price <= price < max_price` (`price < float("inf")` always holds). -/
def inPriceRange (p lo : ℚ) (hi : Option ℚ) : Bool :=
  decide (lo ≤ p) && (match hi with | none => true | some h => decide (p < h))

/-- `AutoTagger.categorize_price`: first matching range, `"luxury"` on
fall-through, `"unknown"` when the price is absent. -/
def categorize_price (price : Option ℚ) : String :=
  match price with
  | none => "unknown"
  | some p =>
    match price_categories.find? (fun c => inPriceRange p c.2.1 c.2.2) with
    | some c => c.1
    | none => "luxury"

/-- The `material_keywords` list in `extract_materials`. -/
def material_keywords : List String :=
  ["wood", "metal", "glass", "ceramic", "clay", "leather", "fabric",
   "cotton", "wool", "silk", "linen", "hemp", "bamboo", "cork",
   "silver", "gold", "copper", "bronze", "steel", "iron",
   "plastic", "resin", "stone", "marble", "granite"]

/-- `AutoTagger.extract_materials`: keywords found in the lowercased
title+description, extended with `item.materials` as given, then
`list(set(...))`. A CPython `set` removes exact-string duplicates in an
unspecified iteration order; we model it with `List.dedup` (order fixed;
none of the claims depends on the order). -/
def extract_materials (i : CraftItem) : List String :=
  let text := itemText i
  let materials := material_keywords.filter (fun m => strContains text m)
  let materials := materials ++ i.materials.getD []
  materials.dedup

/-- The per-category points of `calculate_eco_impact_score`'s `if/elif` chain. -/
def sustainabilityWeight (category : String) : ℚ :=
  if category == "recycled" then 0.2
  else if category == "organic" then 0.15
  else if category == "renewable" then 0.15
  else if category == "local" then 0.1
  else if category == "fair_trade" then 0.1
  else if category == "low_impact" then 0.1
  else 0

/-- The `handmade_keywords` list in `calculate_eco_impact_score`. -/
def handmade_keywords : List String :=
  ["handmade", "hand made", "artisan", "crafted", "handcrafted"]

/-- The keyword loop of `calculate_eco_impact_score`: starting from the 0.3
base, add the category weight and record the tag for every sustainability
keyword found in the text. -/
def ecoBaseScan (text : String) : ℚ × List String :=
  sustainable_materials.foldl
    (fun acc c => c.2.foldl
      (fun acc2 kw =>
        if strContains text kw then (acc2.1 + sustainabilityWeight c.1, acc2.2 ++ [kw])
        else acc2)
      acc)
    ((0.3 : ℚ), ([] : List String))

/-- The handmade bonus of `calculate_eco_impact_score`: +0.1 and the tag
`"handmade"` when any handmade keyword occurs in the text. -/
def ecoWithBonus (text : String) : ℚ × List String :=
  let base := ecoBaseScan text
  if handmade_keywords.any (fun kw => strContains text kw) then
    (base.1 + 0.1, base.2 ++ ["handmade"])
  else base

/-- `AutoTagger.calculate_eco_impact_score`: starts at 0.3, adds the category
weight for every sustainability keyword found in the text, adds 0.1 if any
handmade keyword is present, caps the score at 1.0; returns the score and the
deduplicated tags (`list(set(...))`, modelled as `List.dedup`). The `materials`
argument is unused, as in the source. -/
def calculate_eco_impact_score (i : CraftItem) (_materials : List String) :
    ℚ × List String :=
  let withBonus := ecoWithBonus (itemText i)
  (min withBonus.1 1.0, withBonus.2.dedup)

/-- Stable descending insertion by key: `x` goes after every already-placed
element of equal key, modelling CPython's stable `sort(..., reverse=True)`. -/
def insertByKeyDesc (key : String → ℚ) (x : String) : List String → List String
  | [] => [x]
  | y :: ys => if key y < key x then x :: y :: ys else y :: insertByKeyDesc key x ys

/-- Stable sort, descending by key (`list.sort(key=..., reverse=True)`). -/
def sortByKeyDesc (key : String → ℚ) (l : List String) : List String :=
  l.foldl (fun acc x => insertByKeyDesc key x acc) []

/-- `AutoTagger.extract_categories`: for each craft category, count keyword
matches; keep the category with `min(matches / len(keywords), 1.0)` as
confidence when there is at least one match; sort detected categories by
confidence, descending. Returns the sorted categories and the confidence
dictionary (modelled as an association list in insertion order). -/
def extract_categories (i : CraftItem) : List String × List (String × ℚ) :=
  let text := itemText i
  let scored := craft_categories.filterMap (fun c =>
    let nMatches := (c.2.filter (fun kw => strContains text kw)).length
    if 0 < nMatches then some (c.1, min ((nMatches : ℚ) / c.2.length) 1) else none)
  let conf := fun cat => ((scored.find? (fun e => e.1 == cat)).map Prod.snd).getD 0
  (sortByKeyDesc conf (scored.map Prod.fst), scored)

/-- The `extracted_features` dictionary built by `tag_item`. -/
structure ExtractedFeatures where
  word_count : ℕ
  has_location : Bool
  has_artisan : Bool
  material_count : ℕ
deriving DecidableEq

/-- The `confidence_scores` dictionary built by `tag_item`. -/
structure ConfidenceScores where
  categories : List (String × ℚ)
  eco_impact : ℚ
  overall : ℚ
deriving DecidableEq

/-- Result of the auto-tagging process (`TaggingResult`). -/
structure TaggingResult where
  categories : List String
  materials : List String
  sustainability_tags : List String
  eco_impact_score : ℚ
  price_category : String
  extracted_features : ExtractedFeatures
  confidence_scores : ConfidenceScores
deriving DecidableEq

/-- `len(item.description.split())` — Python `split()` splits on whitespace
runs and drops empty pieces; an empty description is falsy, giving 0. -/
def word_count (description : String) : ℕ :=
  if description == "" then 0
  else ((description.split (fun c => c.isWhitespace)).filter (fun w => w ≠ "")).length

/-- `AutoTagger.tag_item`: composes category extraction, material extraction,
eco-impact scoring and price categorization into a `TaggingResult`. -/
def tag_item (i : CraftItem) : TaggingResult :=
  let extracted := extract_categories i
  let categories := extracted.1
  let category_confidence := extracted.2
  let materials := extract_materials i
  let eco := calculate_eco_impact_score i materials
  let price_category := categorize_price i.price
  { categories := categories
    materials := materials
    sustainability_tags := eco.2
    eco_impact_score := eco.1
    price_category := price_category
    extracted_features :=
      { word_count := word_count i.description
        has_location := i.location.isSome
        has_artisan := i.artisan.isSome
        material_count := materials.length }
    confidence_scores :=
      { categories := category_confidence
        eco_impact := eco.1
        overall :=
          if category_confidence.isEmpty then 0
          else (category_confidence.map Prod.snd).sum / category_confidence.length } }

/-- `AutoTagger.batch_tag_items`. -/
def batch_tag_items (items : List CraftItem) : List TaggingResult :=
  items.map tag_item

theorem sustainabilityWeight_nonneg (c : String) : 0 ≤ sustainabilityWeight c := by
  unfold sustainabilityWeight
  split_ifs <;> norm_num

/-- The inner keyword fold of `calculate_eco_impact_score` never decreases the
accumulated score when the added weight is nonnegative. -/
theorem ecoScan_inner_le (text : String) (w : ℚ) (hw : 0 ≤ w) :
    ∀ (kws : List String) (acc : ℚ × List String),
      acc.1 ≤ (kws.foldl (fun acc2 kw =>
        if strContains text kw then (acc2.1 + w, acc2.2 ++ [kw]) else acc2) acc).1
  | [], _ => le_refl _
  | kw :: kws, acc => by
    simp only [List.foldl_cons]
    refine le_trans ?_ (ecoScan_inner_le text w hw kws _)
    split
    · simp only []
      linarith
    · exact le_refl _

/-- The outer category fold of `calculate_eco_impact_score` never decreases
the accumulated score. -/
theorem ecoScan_outer_le (text : String) :
    ∀ (cats : List (String × List String)) (acc : ℚ × List String),
      acc.1 ≤ (cats.foldl
        (fun acc c => c.2.foldl
          (fun acc2 kw =>
            if strContains text kw then (acc2.1 + sustainabilityWeight c.1, acc2.2 ++ [kw])
            else acc2)
          acc)
        acc).1
  | [], _ => le_refl _
  | c :: cats, acc => by
    simp only [List.foldl_cons]
    refine le_trans ?_ (ecoScan_outer_le text cats _)
    exact ecoScan_inner_le text (sustainabilityWeight c.1) (sustainabilityWeight_nonneg c.1) c.2 acc

/-- C4: for every craft item the eco-impact score lies in `[0, 1]` — in fact it
is at least the 0.3 base, every keyword weight added is positive, and the sum
is capped at 1.0. -/
theorem eco_impact_score_in_unit_interval (i : CraftItem) (ms : List String) :
    0 ≤ (calculate_eco_impact_score i ms).1 ∧ (calculate_eco_impact_score i ms).1 ≤ 1 := by
  have hbase : (0.3 : ℚ) ≤ (ecoBaseScan (itemText i)).1 :=
    ecoScan_outer_le (itemText i) sustainable_materials ((0.3 : ℚ), ([] : List String))
  have hbonus : (0.3 : ℚ) ≤ (ecoWithBonus (itemText i)).1 := by
    unfold ecoWithBonus
    split
    · simp only []
      linarith
    · exact hbase
  have heq : (calculate_eco_impact_score i ms).1 = min (ecoWithBonus (itemText i)).1 1.0 := rfl
  rw [heq]
  refine ⟨le_min (by linarith) (by norm_num), le_trans (min_le_right _ _) (by norm_num)⟩

/-- C5: every present price lands in exactly one of the five named buckets
(`find?` returns the first matching half-open range, the fall-through is
`"luxury"`), with 30 ↦ affordable, 600 ↦ luxury, and a missing price ↦ unknown. -/
theorem categorize_price_buckets :
    (∀ p : ℚ, categorize_price (some p) ∈
      (["budget", "affordable", "mid_range", "premium", "luxury"] : List String)) ∧
    categorize_price (some 30) = "affordable" ∧
    categorize_price (some 600) = "luxury" ∧
    categorize_price none = "unknown" := by
  refine ⟨?_, rfl, rfl, rfl⟩
  intro p
  cases hf : price_categories.find? (fun c => inPriceRange p c.2.1 c.2.2) with
  | none => simp [categorize_price, hf]
  | some c =>
    have hc : categorize_price (some p) = c.1 := by simp [categorize_price, hf]
    rw [hc]
    have hmem := List.mem_of_find?_eq_some hf
    simp only [price_categories, List.mem_cons, List.not_mem_nil, or_false] at hmem
    rcases hmem with rfl | rfl | rfl | rfl | rfl <;> simp

/-- C10: a strictly negative price satisfies no bucket's lower bound (all
ranges start at 0 or above), so the loop falls through and returns
`"luxury"`. -/
theorem categorize_price_negative (p : ℚ) (h : p < 0) :
    categorize_price (some p) = "luxury" := by
  have h0 : ¬ ((0 : ℚ) ≤ p) := not_le.mpr h
  have h25 : ¬ ((25 : ℚ) ≤ p) := by intro hc; linarith
  have h75 : ¬ ((75 : ℚ) ≤ p) := by intro hc; linarith
  have h200 : ¬ ((200 : ℚ) ≤ p) := by intro hc; linarith
  have h500 : ¬ ((500 : ℚ) ≤ p) := by intro hc; linarith
  simp [categorize_price, price_categories, List.find?, inPriceRange,
    h0, h25, h75, h200, h500]

/-- C10 witness: `categorize_price(-5) = "luxury"`. -/
theorem categorize_price_negative_witness : categorize_price (some (-5)) = "luxury" :=
  categorize_price_negative (-5) (by norm_num)

/-- A craft item whose supplied materials repeat a detected keyword with
different casing. -/
def caseClashItem : CraftItem :=
  { title := "wood", description := "", materials := some ["Wood"] }

/-- C8 counterexample: `list(set(...))` deduplicates exact strings only and the
supplied materials are not lowercased, so `"wood"` (detected in the text) and
`"Wood"` (supplied) both survive — two entries of the result equal up to case. -/
theorem extract_materials_case_clash :
    "wood" ∈ extract_materials caseClashItem ∧
    "Wood" ∈ extract_materials caseClashItem ∧
    "wood" ≠ "Wood" ∧ strToLower "wood" = strToLower "Wood" := by decide

/-- C8 amended: the result is the exact-string-deduplicated union of the
keywords detected (case-insensitively, via the lowercased text) and the
supplied materials as given: it has no two string-equal entries, its members
are exactly the detected keywords and supplied materials, and detection is
case-insensitive ("WOOD" and "wood" in the text yield identical detection) —
but entries that differ only in case are not merged. -/
theorem extract_materials_union :
    (∀ i : CraftItem,
      (extract_materials i).Nodup ∧
      (∀ m, m ∈ extract_materials i ↔
        ((m ∈ material_keywords ∧ strContains (itemText i) m = true) ∨
          m ∈ i.materials.getD []))) ∧
    extract_materials { title := "WOOD", description := "" } =
      extract_materials { title := "wood", description := "" } := by
  refine ⟨fun i => ⟨List.nodup_dedup _, fun m => ?_⟩, by decide⟩
  simp [extract_materials, List.mem_dedup, List.mem_append, List.mem_filter]

/-- C9: tagging is deterministic — `tag_item` is a pure function of the item
and the fixed keyword tables, so identical inputs give identical
`TaggingResult`s (same category order, materials, tags, scores, confidences). -/
theorem tag_item_deterministic (i j : CraftItem) (h : i = j) :
    tag_item i = tag_item j := by rw [h]

/-- C9 witness: two calls on a concrete item agree. -/
theorem tag_item_deterministic_witness :
    tag_item { title := "Handmade Recycled Glass Vase",
               description := "a vase of recycled glass", price := some 45 } =
    tag_item { title := "Handmade Recycled Glass Vase",
               description := "a vase of recycled glass", price := some 45 } :=
  tag_item_deterministic _ _ rfl

/-! ## `src/backend/app.py` — the `/predict` endpoint -/

/-- The JSON body of a `/predict` request: each eco-impact field may be
absent. -/
structure PredictRequest where
  weight_g : Option ℚ
  packaging_weight_g : Option ℚ
  distance_km_to_market : Option ℚ
  category : Option String
  percent_recycled_material : Option ℚ
  production_method : Option String

/-- Outcome of the `/predict` handler: the 400 validation error
(`jsonify({"error": ...}), 400`) or the success payload (whose
`co2_saving_kg` and `sustainability_score`/`waste_reduction_pct` fields both
come from `estimate_eco_impact`). -/
inductive PredictResponse where
  | validationError (message : String) (status : ℕ)
  | ok (co2_saving sustainability_score : ℚ)
deriving DecidableEq

/-- The `required_fields` list of the handler, in source order. -/
def required_fields : List String :=
  ["weight_g", "packaging_weight_g", "distance_km_to_market",
   "category", "percent_recycled_material", "production_method"]

/-- `field not in product` for each of the six required fields. -/
def fieldAbsent (r : PredictRequest) (f : String) : Bool :=
  if f == "weight_g" then r.weight_g.isNone
  else if f == "packaging_weight_g" then r.packaging_weight_g.isNone
  else if f == "distance_km_to_market" then r.distance_km_to_market.isNone
  else if f == "category" then r.category.isNone
  else if f == "percent_recycled_material" then r.percent_recycled_material.isNone
  else if f == "production_method" then r.production_method.isNone
  else false

/-- The `/predict` handler: report the first missing required field as a 400
error, otherwise run `estimate_eco_impact`. -/
def predict (r : PredictRequest) : PredictResponse :=
  match r.weight_g with
  | none => .validationError "Missing required field: weight_g" 400
  | some weight_g =>
  match r.packaging_weight_g with
  | none => .validationError "Missing required field: packaging_weight_g" 400
  | some packaging_weight_g =>
  match r.distance_km_to_market with
  | none => .validationError "Missing required field: distance_km_to_market" 400
  | some distance_km_to_market =>
  match r.category with
  | none => .validationError "Missing required field: category" 400
  | some category =>
  match r.percent_recycled_material with
  | none => .validationError "Missing required field: percent_recycled_material" 400
  | some percent_recycled_material =>
  match r.production_method with
  | none => .validationError "Missing required field: production_method" 400
  | some production_method =>
    let result := estimate_eco_impact
      { category := category, weight_g := weight_g,
        packaging_weight_g := packaging_weight_g,
        distance_km_to_market := distance_km_to_market,
        percent_recycled_material := percent_recycled_material,
        production_method := production_method }
    .ok result.1 result.2

/-- C7: when any required eco-impact field is absent, `/predict` answers with a
structured 400 error naming a missing field and never reaches the estimator
(no silent default). -/
theorem predict_missing_field_error (r : PredictRequest)
    (h : r.weight_g = none ∨ r.packaging_weight_g = none ∨
         r.distance_km_to_market = none ∨ r.category = none ∨
         r.percent_recycled_material = none ∨ r.production_method = none) :
    (∃ f, f ∈ required_fields ∧ fieldAbsent r f = true ∧
      predict r = .validationError ("Missing required field: " ++ f) 400) ∧
    ∀ c s, predict r ≠ .ok c s := by
  rcases r with ⟨w, pk, d, cat, pr, pm⟩
  rcases w with _ | w
  · exact ⟨⟨"weight_g", by simp [required_fields], rfl, rfl⟩,
      fun c s => by simp [predict]⟩
  rcases pk with _ | pk
  · exact ⟨⟨"packaging_weight_g", by simp [required_fields], rfl, rfl⟩,
      fun c s => by simp [predict]⟩
  rcases d with _ | d
  · exact ⟨⟨"distance_km_to_market", by simp [required_fields], rfl, rfl⟩,
      fun c s => by simp [predict]⟩
  rcases cat with _ | cat
  · exact ⟨⟨"category", by simp [required_fields], rfl, rfl⟩,
      fun c s => by simp [predict]⟩
  rcases pr with _ | pr
  · exact ⟨⟨"percent_recycled_material", by simp [required_fields], rfl, rfl⟩,
      fun c s => by simp [predict]⟩
  rcases pm with _ | pm
  · exact ⟨⟨"production_method", by simp [required_fields], rfl, rfl⟩,
      fun c s => by simp [predict]⟩
  simp at h

/-- C7 witness: the all-fields-absent request is rejected with a 400 naming a
missing field, and is never passed to the estimator. -/
theorem predict_missing_field_error_witness :
    (∃ f, f ∈ required_fields ∧
      fieldAbsent ⟨none, none, none, none, none, none⟩ f = true ∧
      predict ⟨none, none, none, none, none, none⟩ =
        .validationError ("Missing required field: " ++ f) 400) ∧
    ∀ c s, predict ⟨none, none, none, none, none, none⟩ ≠ .ok c s :=
  predict_missing_field_error ⟨none, none, none, none, none, none⟩ (Or.inl rfl)

/-! ## `src/ml/advanced_models.py` — `AdvancedPricingModel.predict_price` -/

/-- `np.mean` of the two available point estimates. The model registry holds
at most `xgboost` and `random_forest`, so "more than one estimate available"
means exactly these two. -/
def ensemble_mean (a b : ℚ) : ℚ := (a + b) / 2

/-- `np.std` of two values equals half the absolute difference. -/
def ensemble_std (a b : ℚ) : ℚ := |a - b| / 2

/-- `confidence = min(0.95, max(0.6, 1.0 - np.std(values) / np.mean(values)))`. -/
def ensemble_confidence (a b : ℚ) : ℚ :=
  min 0.95 (max 0.6 (1 - ensemble_std a b / ensemble_mean a b))

/-- The confidence the spec's words describe: the same quantity clamped to
`[0.5, 0.95]` (stated only to compare against `ensemble_confidence`). -/
def spec_confidence_clamped (a b : ℚ) : ℚ :=
  max 0.5 (min 0.95 (1 - ensemble_std a b / ensemble_mean a b))

/-- C6 counterexample: for estimates 55 and 145 the relative spread is 0.45,
the code reports `max(0.6, 0.55) = 0.6`, while clamping to `[0.5, 0.95]` as
claimed would report 0.55 — the code's lower clamp is 0.6, not 0.5. -/
theorem ensemble_confidence_lower_clamp_is_06 :
    ensemble_confidence 55 145 = 0.6 ∧
    spec_confidence_clamped 55 145 = 0.55 ∧
    ensemble_confidence 55 145 ≠ spec_confidence_clamped 55 145 := by
  norm_num [ensemble_confidence, spec_confidence_clamped, ensemble_std, ensemble_mean]

/-- C6 amended: with both estimates available, the prediction is the
arithmetic mean, and the confidence is clamped to `[0.6, 0.95]` (0.5 occurs
only in the no-estimator fallback) and is non-increasing in the coefficient
of variation of the estimates. -/
theorem ensemble_mean_and_confidence (a b c d : ℚ)
    (h : ensemble_std a b / ensemble_mean a b ≤ ensemble_std c d / ensemble_mean c d) :
    ensemble_mean a b = (a + b) / 2 ∧
    3 / 5 ≤ ensemble_confidence a b ∧ ensemble_confidence a b ≤ 19 / 20 ∧
    ensemble_confidence c d ≤ ensemble_confidence a b := by
  refine ⟨rfl, ?_, ?_, ?_⟩
  · refine le_min (by norm_num) ?_
    calc (3 / 5 : ℚ) = 0.6 := by norm_num
      _ ≤ max 0.6 (1 - ensemble_std a b / ensemble_mean a b) := le_max_left _ _
  · calc ensemble_confidence a b ≤ 0.95 := min_le_left _ _
      _ = 19 / 20 := by norm_num
  · unfold ensemble_confidence
    have h1 : 1 - ensemble_std c d / ensemble_mean c d ≤
        1 - ensemble_std a b / ensemble_mean a b := by linarith
    exact min_le_min (le_refl _) (max_le_max (le_refl _) h1)

/-- C6 witness: equal estimates (spread 0) versus estimates 55 and 145
(spread 0.45). -/
theorem ensemble_mean_and_confidence_witness :
    ensemble_mean 100 100 = (100 + 100) / 2 ∧
    3 / 5 ≤ ensemble_confidence 100 100 ∧ ensemble_confidence 100 100 ≤ 19 / 20 ∧
    ensemble_confidence 55 145 ≤ ensemble_confidence 100 100 :=
  ensemble_mean_and_confidence 100 100 55 145
    (by norm_num [ensemble_std, ensemble_mean])

end CraftConnect
